import Mathlib

/-!
Verification of the jyrobot 2D robot simulator core against its
specification.  The Python sources (`jyrobot/utils.py`,
`jyrobot/devices/cameras.py`, `jyrobot/world.py`) are shallowly embedded:
floats become rationals, `None`/exceptions become `Option`/`Except`, and
mutation becomes explicit state passing.
-/

namespace Jyrobot

/-! ## Color (utils.py, class Color) -/

/-- RGBA color as built by `Color.__init__` in `utils.py`.  Channels are
naturals (all claims range over 0..255); `name` is the optional symbolic
color name, `none` unless constructed from a name string. -/
structure Color where
  name : Option (List Char)
  red : ℕ
  green : ℕ
  blue : ℕ
  alpha : ℕ
deriving DecidableEq, Repr

/-- Uppercase hex digit for `n` in 0..15, as produced by Python `"%X"`. -/
def hexDigit (n : ℕ) : Char :=
  if n < 10 then Char.ofNat (48 + n) else Char.ofNat (55 + n)

/-- Fuel-driven most-significant-first hex digits accumulator. -/
def hexCharsAux : ℕ → ℕ → List Char → List Char
  | 0, _, acc => acc
  | fuel + 1, n, acc =>
    if n < 16 then hexDigit n :: acc
    else hexCharsAux fuel (n / 16) (hexDigit (n % 16) :: acc)

/-- Hex representation of `n` with no leading zeros (`"0"` for 0), uppercase,
as produced by Python `"%X" % n` for a nonnegative int. -/
def pyUpperHex (n : ℕ) : List Char :=
  hexCharsAux (n + 1) n []

/-- Zero-pad to width 2, as Python `"%02X"` does. -/
def pad2 (l : List Char) : List Char :=
  List.replicate (2 - l.length) '0' ++ l

/-- Color.to_hexcode (utils.py 69-70): `"#%02X%02X%02X%02X"` over the
channel tuple. -/
def Color.to_hexcode (c : Color) : List Char :=
  '#' :: pad2 (pyUpperHex c.red) ++ pad2 (pyUpperHex c.green) ++
    pad2 (pyUpperHex c.blue) ++ pad2 (pyUpperHex c.alpha)

/-- Value of one hex digit, as Python `int(-,16)` reads a character. -/
def hexVal (c : Char) : ℕ :=
  if 48 ≤ c.toNat ∧ c.toNat ≤ 57 then c.toNat - 48
  else if 65 ≤ c.toNat ∧ c.toNat ≤ 70 then c.toNat - 55
  else if 97 ≤ c.toNat ∧ c.toNat ≤ 102 then c.toNat - 87
  else 0

/-- Python `int(s, 16)` on a string of hex digits. -/
def parseHex (l : List Char) : ℕ :=
  l.foldl (fun acc c => 16 * acc + hexVal c) 0

/-- Color.hex_to_rgba (utils.py 47-55): slices `[1:3]`, `[3:5]`, `[5:7]` and,
when the string is longer than 7 characters, `[7:9]`, else alpha `"FF"`. -/
def hex_to_rgba (s : List Char) : ℕ × ℕ × ℕ × ℕ :=
  let r_hex := (s.drop 1).take 2
  let g_hex := (s.drop 3).take 2
  let b_hex := (s.drop 5).take 2
  let a_hex := if 7 < s.length then (s.drop 7).take 2 else ['F', 'F']
  (parseHex r_hex, parseHex g_hex, parseHex b_hex, parseHex a_hex)

/-- Tail of `Color.__init__` (utils.py 33-45): a missing green/blue channel
defaults to `red`, a missing alpha defaults to 255. -/
def assembleColor (nm : Option (List Char)) (red : ℕ)
    (green blue alpha : Option ℕ) : Color :=
  { name := nm, red := red, green := green.getD red, blue := blue.getD red,
    alpha := alpha.getD 255 }

/-- Color.__init__ on numeric arguments (no string / list first argument). -/
def Color.ofNums (red : ℕ) (green blue alpha : Option ℕ) : Color :=
  assembleColor none red green blue alpha

/-- Color.__init__ on a `"#..."` hex string (utils.py 18-20). -/
def Color.ofHex (s : List Char) : Color :=
  let rgba := hex_to_rgba s
  assembleColor none rgba.1 (some rgba.2.1) (some rgba.2.2.1) (some rgba.2.2.2)

/-- Color.__init__ on a list/tuple first argument (utils.py 26-31): a
3-element list gets alpha 255, a 4-element list is unpacked, any other
length raises (modelled as `none`). -/
def Color.ofList (xs : List ℕ) : Option Color :=
  match xs with
  | [r, g, b] => some (assembleColor none r (some g) (some b) (some 255))
  | [r, g, b, a] => some (assembleColor none r (some g) (some b) (some a))
  | _ => none

/-! ## Camera (devices/cameras.py)

Floats are embedded as rationals; `math.pi` is passed explicitly as the
parameter `piV` wherever the source uses it, so every definition stays
executable. -/

/-- Color values flowing through `take_picture` (float channels before the
final `int()` in `to_tuple`). -/
structure CamColor where
  red : ℚ
  green : ℚ
  blue : ℚ
deriving DecidableEq, Repr

/-- Color.to_tuple on a picture color: channels truncated to ints (all are
nonnegative, so truncation is the floor), alpha defaulting to 255. -/
def CamColor.toTuple (c : CamColor) : ℤ × ℤ × ℤ × ℤ :=
  (⌊c.red⌋, ⌊c.green⌋, ⌊c.blue⌋, 255)

/-- Grayscale picture color, for the single-argument `Color(v)` calls in
`take_picture`. -/
def grayC (v : ℚ) : CamColor := ⟨v, v, v⟩

/-- The robot owning an obstacle hit, as seen by `take_picture`
(only its identity and whether it exposes a sprite image matter). -/
structure ObRobot where
  rname : ℕ
  hasImage : Bool
deriving DecidableEq, Repr

/-- One ray intersection record as consumed by the camera: distance along
the ray, relative height (1 = full wall, < 1 = obstacle), surface color and
the owning robot (`none` for walls).  `robot.cast_ray` (robot.py, outside
src/) returns these ordered farthest first / closest last, the convention
documented at cameras.py 207 ("reverse make it closest first") and 268
("get closest"). -/
structure RayHit where
  distance : ℚ
  height : ℚ
  color : CamColor
  robot : Option ObRobot
deriving DecidableEq, Repr

/-- Camera state (class Camera): `cameraShape0/1` are the two entries of
the `cameraShape` list (width, height in pixels); `angle` is the field of
view stored in radians; `hits` is the per-column hit buffer.  The constant
`self.type = "camera"` tag is omitted. -/
structure Camera where
  cameraShape0 : ℕ
  cameraShape1 : ℕ
  time : ℚ
  max_range : ℚ
  colorsFadeWithDistance : ℚ
  sizeFadeWithDistance : ℚ
  reflectGround : Bool
  reflectSky : Bool
  angle : ℚ
  hits : List (List RayHit)
deriving DecidableEq, Repr

/-- Camera.reset (cameras.py 73-74): one empty hit list per column. -/
def Camera.reset (c : Camera) : Camera :=
  { c with hits := List.replicate c.cameraShape0 [] }

/-- Camera.set_fov (cameras.py 130-136): degrees in, radians stored, hit
buffer reset. -/
def Camera.set_fov (piV : ℚ) (c : Camera) (angleDeg : ℚ) : Camera :=
  Camera.reset { c with angle := angleDeg * piV / 180 }

/-- Camera.set_size (cameras.py 138-141). -/
def Camera.set_size (c : Camera) (width height : ℕ) : Camera :=
  Camera.reset { c with cameraShape0 := width, cameraShape1 := height }

/-- Camera.initDefaults (cameras.py 59-71): fixed defaults, then
`set_fov(60)` and `reset()`. -/
def Camera.initDefaults (piV : ℚ) : Camera :=
  Camera.reset (Camera.set_fov piV
    { cameraShape0 := 256, cameraShape1 := 128, time := 0, max_range := 1000,
      colorsFadeWithDistance := 1/2, sizeFadeWithDistance := 1,
      reflectGround := true, reflectSky := false, angle := 0, hits := [] } 60)

/-- A camera configuration dictionary: `none` marks an absent key.
`Camera.to_json` also emits a constant `"class"` entry. -/
structure CameraConfig where
  className : Option (List Char)
  width : Option ℕ
  height : Option ℕ
  colorsFadeWithDistance : Option ℚ
  sizeFadeWithDistance : Option ℚ
  reflectGround : Option Bool
  reflectSky : Option Bool
  angle : Option ℚ
  max_range : Option ℚ
deriving DecidableEq, Repr

/-- Camera.from_json (cameras.py 76-93): each present key updates the
corresponding field, in source order; a present `angle` (degrees) goes
through `set_fov`. -/
def Camera.from_json (piV : ℚ) (c : Camera) (cfg : CameraConfig) : Camera :=
  let c := match cfg.width with
    | some w => { c with cameraShape0 := w } | none => c
  let c := match cfg.height with
    | some h => { c with cameraShape1 := h } | none => c
  let c := match cfg.colorsFadeWithDistance with
    | some v => { c with colorsFadeWithDistance := v } | none => c
  let c := match cfg.sizeFadeWithDistance with
    | some v => { c with sizeFadeWithDistance := v } | none => c
  let c := match cfg.reflectGround with
    | some v => { c with reflectGround := v } | none => c
  let c := match cfg.reflectSky with
    | some v => { c with reflectSky := v } | none => c
  let c := match cfg.angle with
    | some a => Camera.set_fov piV c a | none => c
  let c := match cfg.max_range with
    | some v => { c with max_range := v } | none => c
  c

/-- Camera.to_json (cameras.py 95-106): every key present, angle emitted in
degrees. -/
def Camera.to_json (piV : ℚ) (c : Camera) : CameraConfig :=
  { className := some ['C', 'a', 'm', 'e', 'r', 'a'],
    width := some c.cameraShape0,
    height := some c.cameraShape1,
    colorsFadeWithDistance := some c.colorsFadeWithDistance,
    sizeFadeWithDistance := some c.sizeFadeWithDistance,
    reflectGround := some c.reflectGround,
    reflectSky := some c.reflectSky,
    angle := some (c.angle * 180 / piV),
    max_range := some c.max_range }

/-- Camera.__init__ (cameras.py 17-57) with an explicit config dictionary:
`initialize()` then `from_json(config)`. -/
def Camera.new (piV : ℚ) (cfg : CameraConfig) : Camera :=
  Camera.from_json piV (Camera.initDefaults piV) cfg

/-- Pose of the robot carrying the camera, read by `_update`. -/
structure RobotPose where
  x : ℚ
  y : ℚ
  direction : ℚ
deriving DecidableEq, Repr

/-- Argument tuple of one `robot.cast_ray` call. -/
structure CastArgs where
  x : ℚ
  y : ℚ
  rayAngle : ℚ
  maxDist : ℚ
deriving DecidableEq, Repr

/-- Camera._update (cameras.py 186-196): per column `i`, the relative angle
is `i / width * angle - angle / 2` and `cast_ray` is invoked at world angle
`pi/2 - direction - angle` with the literal maximum distance `1000`
(cameras.py line 195 passes the constant `1000`, not `self.max_range`). -/
def Camera.updateCastArgs (piV : ℚ) (c : Camera) (rob : RobotPose) :
    List CastArgs :=
  (List.range c.cameraShape0).map fun i =>
    let angle := (i : ℚ) / (c.cameraShape0 : ℚ) * c.angle - c.angle / 2
    { x := rob.x, y := rob.y, rayAngle := piV / 2 - rob.direction - angle,
      maxDist := 1000 }

/-- Camera.find_closest_wall (cameras.py 206-211): scan the hit list in
reverse, skip hits with height < 1, return the first remaining hit's
distance; `none` models the `float("inf")` returned when no wall is hit. -/
def find_closest_wall (hits : List RayHit) : Option ℚ :=
  (hits.reverse.find? fun hit => !decide (hit.height < 1)).map (·.distance)

/-- Comparison `hit.distance > closest_wall_dist` of cameras.py 334, where
the wall distance may be `float("inf")` (`none`): nothing exceeds infinity. -/
def distBeyondWall (d : ℚ) : Option ℚ → Bool
  | none => false
  | some w => decide (w < d)

/-- The wall pick of `take_picture` (cameras.py 265-268): filter the column
to full-height hits and take the last element (`hits[-1]  # get closest`). -/
def wallPick (hits : List RayHit) : Option RayHit :=
  (hits.filter fun h => decide (h.height = 1)).getLast?

/-- The clamped fade factor used for both `s` and `sc` in `take_picture`
(cameras.py 274-280 and 338-344):
`max(min(1.0 - distance / size * fade, 1.0), 0.0)`. -/
def fadeClamp (size distance fade : ℚ) : ℚ :=
  max (min (1 - distance / size * fade) 1) 0

/-- Rendering variant of `take_picture` (its `type` argument). -/
inductive PicType
  | color
  | depth
  | gray
deriving DecidableEq, Repr

/-- Sky pixel color per column row (cameras.py 302-312). -/
def skyPixel (ty : PicType) (c : Camera) (dist : ℚ) : CamColor :=
  match ty with
  | .depth => if c.reflectSky then grayC (255 * dist) else grayC 0
  | .color => ⟨0, 0, 128⟩
  | .gray => grayC (128 / 3)

/-- Ground pixel color per column row (cameras.py 316-326), with the world
ground image absent so `get_ground_color` returns `world.ground_color`. -/
def groundPixel (ty : PicType) (c : Camera) (groundColor : CamColor)
    (dist : ℚ) : CamColor :=
  match ty with
  | .depth => if c.reflectGround then grayC (255 * dist) else grayC 0
  | .color => groundColor
  | .gray => grayC (128 / 3)

/-- Wall-band color for one column (cameras.py 281-294). -/
def hitPixel (ty : PicType) (hit : RayHit) (distRatio sc : ℚ) : CamColor :=
  match ty with
  | .color => ⟨hit.color.red * sc, hit.color.green * sc, hit.color.blue * sc⟩
  | .depth => grayC (255 * distRatio)
  | .gray =>
    let avg := (hit.color.red + hit.color.green + hit.color.blue) / 3
    grayC (avg * sc)

/-- One column of the wall/sky/ground base pass of `take_picture`
(cameras.py 264-326), with the world ground image absent.  `size` is
`max(world.width, world.height)`.  Entry `j` is the pixel written at row
`j`, `none` when the pixel is left untouched: a column whose filtered wall
list is empty is skipped whole by the `continue` at line 267. -/
def renderColumn (ty : PicType) (c : Camera) (size : ℚ)
    (groundColor : CamColor) (hits : List RayHit) :
    List (Option (ℤ × ℤ × ℤ × ℤ)) :=
  match wallPick hits with
  | none => List.replicate c.cameraShape1 none
  | some hit =>
    let distance_ratio := max (min (1 - hit.distance / size) 1) 0
    let s := fadeClamp size hit.distance c.sizeFadeWithDistance
    let sc := fadeClamp size hit.distance c.colorsFadeWithDistance
    let hcolor := hitPixel ty hit distance_ratio sc
    let high := (1 - s) * (c.cameraShape1 : ℚ)
    let horizon := (c.cameraShape1 : ℚ) / 2
    (List.range c.cameraShape1).map fun j =>
      let dist := max (min (|(j : ℚ) - horizon| / horizon) 1) 0
      if (j : ℚ) < high / 2 then
        some (skyPixel ty c dist).toTuple
      else if (j : ℚ) < (c.cameraShape1 : ℚ) - high / 2 then
        some hcolor.toTuple
      else
        some (groundPixel ty c groundColor dist).toTuple

/-- The per-column obstacle walk of the second pass of `take_picture`
(cameras.py 330-336): the column is filtered to hits with height < 1 in
stored order, and the `for` loop `break`s at the first hit whose distance
exceeds the column's closest wall distance, so exactly the longest prefix
of not-yet-beyond-the-wall hits is admitted (drawn / recorded). -/
def obstacleAdmitted (hits : List RayHit) : List RayHit :=
  let closest_wall_dist := find_closest_wall hits
  (hits.filter fun h => decide (h.height < 1)).takeWhile fun h =>
    !distBeyondWall h.distance closest_wall_dist

/-! ## Camera attachment guards (watch / take_picture entry) -/

/-- The part of a robot that the camera guards inspect: whether it has been
added to a world. -/
structure RobotLink where
  world : Option Unit
deriving DecidableEq, Repr

/-- Camera.watch (cameras.py 115-125): when the camera has no robot, or the
robot no world, print an error and return `None`; otherwise return the
watcher widget.  Result: (returned value, whether the error was printed). -/
def watch (robot : Option RobotLink) : Option Unit × Bool :=
  match robot with
  | none => (none, true)
  | some r =>
    match r.world with
    | none => (none, true)
    | some _ => (some (), false)

/-- Entry of Camera.take_picture (cameras.py 244-256): a missing PIL prints
a diagnostic and returns `None`; otherwise `_update()` immediately reads
`self.robot.world.time`, which raises `AttributeError` when the camera has
no robot or the robot no world.  `ok (some ())` stands for proceeding into
picture synthesis. -/
def takePictureEntry (pilAvailable : Bool) (robot : Option RobotLink) :
    Except (List Char) (Option Unit) :=
  if pilAvailable then
    match robot with
    | none => .error ['A', 't', 't', 'r', 'E', 'r', 'r']
    | some r =>
      match r.world with
      | none => .error ['A', 't', 't', 'r', 'E', 'r', 'r']
      | some _ => .ok (some ())
  else
    .ok none

/-! ## World.add_robot (world.py) -/

/-- A line segment, as an ordered pair of 2D points. -/
abbrev Seg := (ℚ × ℚ) × (ℚ × ℚ)

/-- The robot fields `World.add_robot` touches: position, color and
bounding lines (pose-derived footprint edges, computed in robot.py).
Python membership `robot in self._robots` compares object identity,
embedded as structural equality with `rid` the object's identity. -/
structure Robot where
  rid : ℕ
  x : ℚ
  y : ℚ
  color : CamColor
  bounding_lines : List Seg
deriving DecidableEq, Repr

/-- A wall (world.py class Wall): color, optional owning robot, lines. -/
structure Wall where
  color : CamColor
  robot : Option Robot
  lines : List Seg
deriving DecidableEq, Repr

/-- The world state `add_robot` reads and writes. -/
structure World where
  robots : List Robot
  walls : List Wall
deriving DecidableEq, Repr

/-- World.add_robot (world.py 350-363).  `rx`, `ry` stand for the values of
the two `round(random.random() * ...)` draws used when the robot sits at
x = 0 / y = 0.  Returns the updated world and whether the duplicate-robot
error message was printed.  In the non-duplicate branch `self.update()`
redraws and steps the robots but appends to neither list. -/
def World.add_robot (w : World) (robot : Robot) (rx ry : ℚ) : World × Bool :=
  if robot ∉ w.robots then
    let robot := if robot.x = 0 then { robot with x := rx } else robot
    let robot := if robot.y = 0 then { robot with y := ry } else robot
    ({ robots := w.robots ++ [robot],
       walls := w.walls ++
         [{ color := robot.color, robot := some robot,
            lines := robot.bounding_lines }] }, false)
  else
    (w, true)

/-! ## Concrete instances used in witnesses and counterexamples -/

/-- A camera configuration with `max_range` 500 and pixel width 2. -/
def c1Cfg : CameraConfig :=
  { className := none, width := some 2, height := some 2,
    colorsFadeWithDistance := none, sizeFadeWithDistance := none,
    reflectGround := none, reflectSky := none, angle := some 60,
    max_range := some 500 }

/-- A camera constructed from `c1Cfg` (with `piV` = 3 standing for pi). -/
def c1Cam : Camera := Camera.new 3 c1Cfg

/-- Obstacle hit of robot A, 20 units away (in front of the wall). -/
def c2HitA : RayHit := ⟨20, 0, ⟨255, 0, 0⟩, some ⟨1, false⟩⟩

/-- Obstacle hit of robot B, 80 units away (behind the wall). -/
def c2HitB : RayHit := ⟨80, 0, ⟨0, 255, 0⟩, some ⟨2, false⟩⟩

/-- Full-height wall hit, 50 units away. -/
def c2WallHit : RayHit := ⟨50, 1, ⟨0, 0, 255⟩, none⟩

/-- One camera column's hit list, farthest first (the `cast_ray` order):
robot B behind the wall, the wall, robot A in front of it. -/
def c2Hits : List RayHit := [c2HitB, c2WallHit, c2HitA]

/-- Hit list with two walls behind each other plus a far obstacle,
farthest first. -/
def c3Hits : List RayHit :=
  [⟨80, 0, ⟨9, 9, 9⟩, some ⟨2, false⟩⟩,
   ⟨50, 1, ⟨1, 2, 3⟩, none⟩,
   ⟨20, 1, ⟨4, 5, 6⟩, none⟩]

/-- A 2x4-pixel camera. -/
def c4Cam : Camera :=
  { cameraShape0 := 2, cameraShape1 := 4, time := 0, max_range := 1000,
    colorsFadeWithDistance := 1/2, sizeFadeWithDistance := 1,
    reflectGround := true, reflectSky := false, angle := 1,
    hits := [[], []] }

/-- A robot already added to `c8World`. -/
def c8Robot : Robot :=
  { rid := 7, x := 30, y := 40, color := ⟨255, 0, 0⟩,
    bounding_lines := [((29, 39), (31, 39)), ((31, 39), (31, 41))] }

/-- A world containing `c8Robot` and its footprint wall. -/
def c8World : World :=
  { robots := [c8Robot],
    walls := [{ color := c8Robot.color, robot := some c8Robot,
                lines := c8Robot.bounding_lines }] }

/-! ## Helper lemmas -/

set_option maxRecDepth 10000 in
set_option maxHeartbeats 1000000 in
/-- Exhaustive check of the two-hex-digit encoding: for every byte, the
padded uppercase hex pair has length 2 and parses back to the byte. -/
theorem pad2_pyUpperHex_round :
    ∀ n < 256, (pad2 (pyUpperHex n)).length = 2 ∧
      parseHex (pad2 (pyUpperHex n)) = n := by decide

/-- On a list whose heights are all at most 1, skipping the hits with
height < 1 finds exactly the hits with height = 1. -/
theorem find?_skip_eq_find?_wall (l : List RayHit)
    (hh : ∀ h ∈ l, h.height ≤ 1) :
    (l.find? fun h => !decide (h.height < 1)) =
      (l.find? fun h => decide (h.height = 1)) := by
  induction l with
  | nil => rfl
  | cons a t ih =>
    have ha := hh a (List.mem_cons_self a t)
    have ht : ∀ h ∈ t, h.height ≤ 1 := fun h hm =>
      hh h (List.mem_cons_of_mem _ hm)
    by_cases hlt : a.height < 1
    · have hne : a.height ≠ 1 := ne_of_lt hlt
      simp [List.find?_cons, hlt, hne, ih ht]
    · have heq : a.height = 1 := le_antisymm ha (not_lt.mp hlt)
      simp [List.find?_cons, hlt, heq]

/-- The last element of a cons, as an `Option.or`. -/
theorem getLast?_cons_or {α : Type} (a : α) (l : List α) :
    (a :: l).getLast? = l.getLast?.or (some a) := by
  cases l with
  | nil => rfl
  | cons b t =>
    rw [List.getLast?_cons_cons]
    cases hgl : (b :: t).getLast? with
    | none => exact absurd (List.getLast?_eq_none_iff.mp hgl) (by simp)
    | some x => rfl

/-- Searching a reversed list is taking the last matching element. -/
theorem reverse_find?_eq_filter_getLast? {α : Type} (p : α → Bool)
    (l : List α) :
    l.reverse.find? p = (l.filter p).getLast? := by
  induction l with
  | nil => rfl
  | cons a t ih =>
    rw [List.reverse_cons, List.find?_append, ih, List.filter_cons]
    by_cases hpa : p a
    · rw [if_pos hpa, getLast?_cons_or]
      simp [List.find?_cons, hpa]
    · rw [if_neg hpa]
      simp [List.find?_cons, hpa]

/-- In a list sorted by nonincreasing distance, the last element has the
minimum distance. -/
theorem getLast?_min_of_sorted (l : List RayHit)
    (hs : l.Pairwise fun a b => b.distance ≤ a.distance)
    (x : RayHit) (hx : l.getLast? = some x) :
    ∀ h ∈ l, x.distance ≤ h.distance := by
  induction l with
  | nil => simp at hx
  | cons a t ih =>
    obtain ⟨hrel, hpt⟩ := List.pairwise_cons.mp hs
    intro h hm
    rcases List.mem_cons.mp hm with rfl | hmem
    · cases t with
      | nil =>
        simp only [List.getLast?_singleton, Option.some.injEq] at hx
        rw [hx]
      | cons b t2 =>
        rw [List.getLast?_cons_cons] at hx
        exact hrel x (List.mem_of_mem_getLast? hx)
    · cases t with
      | nil => simp at hmem
      | cons b t2 =>
        rw [List.getLast?_cons_cons] at hx
        exact ih hpt hx h hmem

/-! ## Claim theorems -/

/-- C1 (code bug): a camera configured with `max_range` 500 still casts
every ray with maximum distance 1000 — `Camera._update` passes the literal
`1000` (cameras.py 195) to `cast_ray` instead of `self.max_range`, so the
claim's "maximum cast distance equal to the camera's configured max_range"
fails whenever `max_range` is not 1000; the cast angle itself follows the
claimed formula. -/
theorem update_ignores_max_range :
    c1Cam.max_range = 500 ∧ (500 : ℚ) ≠ 1000 ∧
    (Camera.updateCastArgs 3 c1Cam ⟨10, 20, 0⟩).map (·.maxDist) =
      [1000, 1000] :=
  ⟨rfl, by norm_num, rfl⟩

/-- C2 (code bug): with a column's hits stored farthest first (robot B at
80, a wall at 50, robot A at 20), the obstacle walk of `take_picture`
admits nothing: the `break` at cameras.py 336 fires on B (80 > 50) before
the visible robot A is reached, so A's band is not drawn even though A is
in front of the wall — the claim requires A to be drawn. -/
theorem obstacle_break_hides_visible_robot :
    find_closest_wall c2Hits = some 50 ∧
    c2HitA.distance < 50 ∧ (50 : ℚ) < c2HitB.distance ∧
    c2HitA ∈ c2Hits ∧
    obstacleAdmitted c2Hits = [] :=
  ⟨by decide, by decide, by decide, by decide, by decide⟩

/-- C3: on a hit list with heights at most 1 ordered farthest first,
`find_closest_wall` (reverse scan, skip heights < 1, return the first
full-height hit's distance) returns exactly the distance of the wall pick
used by `take_picture` (the last full-height element of the list), and
that distance is minimal over all full-height hits — the closest wall. -/
theorem find_closest_wall_spec (hits : List RayHit)
    (hh : ∀ h ∈ hits, h.height ≤ 1)
    (hs : hits.Pairwise fun a b => b.distance ≤ a.distance) :
    find_closest_wall hits = (wallPick hits).map (·.distance) ∧
    ∀ h ∈ hits, h.height = 1 →
      ∀ d, find_closest_wall hits = some d → d ≤ h.distance := by
  have hh' : ∀ h ∈ hits.reverse, h.height ≤ 1 := fun h hm =>
    hh h (List.mem_reverse.mp hm)
  have h1 : find_closest_wall hits = (wallPick hits).map (·.distance) := by
    unfold find_closest_wall wallPick
    rw [find?_skip_eq_find?_wall _ hh', reverse_find?_eq_filter_getLast?]
  refine ⟨h1, ?_⟩
  intro h hm hheight d hd
  rw [h1] at hd
  cases hwp : wallPick hits with
  | none => rw [hwp] at hd; simp at hd
  | some x =>
    rw [hwp] at hd
    simp only [Option.map_some', Option.some.injEq] at hd
    subst hd
    have hfil := hs.filter (fun h2 => decide (h2.height = 1))
    have hmem : h ∈ hits.filter fun h2 => decide (h2.height = 1) :=
      List.mem_filter.mpr ⟨hm, by simp [hheight]⟩
    exact getLast?_min_of_sorted _ hfil x hwp h hmem

/-- Witness for C3 at a concrete three-hit column. -/
theorem find_closest_wall_spec_witness :
    (∀ h ∈ c3Hits, h.height ≤ 1) ∧
    (c3Hits.Pairwise fun a b => b.distance ≤ a.distance) ∧
    (find_closest_wall c3Hits = (wallPick c3Hits).map (·.distance) ∧
     ∀ h ∈ c3Hits, h.height = 1 →
       ∀ d, find_closest_wall c3Hits = some d → d ≤ h.distance) :=
  ⟨by decide, by decide, find_closest_wall_spec c3Hits (by decide) (by decide)⟩

/-- C4 counterexample: a column with no full-height hit is not rendered as
sky — the base pass leaves every one of its pixels unwritten (`none`), so
no pixel of the column is even painted. -/
theorem no_wall_column_not_sky :
    renderColumn .color c4Cam 100 ⟨0, 128, 0⟩ [] = List.replicate 4 none ∧
    ((List.replicate 4 (none : Option (ℤ × ℤ × ℤ × ℤ))).all
      fun p => p.isSome) = false :=
  ⟨rfl, rfl⟩

/-- C4 (amended): every column whose hit list contains no full-height hit
is skipped whole by the wall/sky/ground pass of `take_picture` (the
`continue` at cameras.py 267): all of its pixels are left at the image's
initial unpainted value rather than being drawn as sky. -/
theorem no_wall_column_skipped (ty : PicType) (c : Camera) (size : ℚ)
    (gc : CamColor) (hits : List RayHit)
    (h : ∀ hh ∈ hits, hh.height ≠ 1) :
    renderColumn ty c size gc hits = List.replicate c.cameraShape1 none := by
  have hwp : wallPick hits = none := by
    unfold wallPick
    rw [List.filter_eq_nil_iff.mpr (by simpa using h)]
    rfl
  unfold renderColumn
  rw [hwp]

/-- Witness for the amended C4 on a column holding one obstacle hit. -/
theorem no_wall_column_skipped_witness :
    (∀ hh ∈ [c2HitA], hh.height ≠ 1) ∧
    renderColumn .color c4Cam 100 ⟨0, 128, 0⟩ [c2HitA] =
      List.replicate c4Cam.cameraShape1 none :=
  ⟨by decide, no_wall_column_skipped .color c4Cam 100 ⟨0, 128, 0⟩ [c2HitA]
    (by decide)⟩

/-- C5 counterexample: at distance = worldSize = 100 with fade factor 1/2
(inside [0,1]), the computed fade is 1/2, not 0 as the claim requires for
every distance at or beyond worldSize. -/
theorem fade_at_world_size_not_zero :
    (0 : ℚ) ≤ 1/2 ∧ (1/2 : ℚ) ≤ 1 ∧ (100 : ℚ) ≤ 100 ∧
    fadeClamp 100 100 (1/2) = 1/2 ∧ (1/2 : ℚ) ≠ 0 := by
  norm_num [fadeClamp]

/-- C5 (amended): for any distance ≥ 0 and fade factor in [0,1], the
clamped `s`/`sc` value lies in [0,1]; it equals 1 at distance 0, and
equals 0 once distance · fade ≥ worldSize (so at distance ≥ worldSize
when the fade factor is 1). -/
theorem fade_clamp_range (size d fade : ℚ) (hsize : 0 < size) (hd : 0 ≤ d)
    (hf0 : 0 ≤ fade) (hf1 : fade ≤ 1) :
    (0 ≤ fadeClamp size d fade ∧ fadeClamp size d fade ≤ 1) ∧
    (d = 0 → fadeClamp size d fade = 1) ∧
    (size ≤ d * fade → fadeClamp size d fade = 0) := by
  refine ⟨⟨le_max_right _ _, max_le (min_le_right _ _) (by norm_num)⟩, ?_, ?_⟩
  · rintro rfl
    simp [fadeClamp]
  · intro hge
    have hkey : (1 : ℚ) ≤ d / size * fade := by
      rw [div_mul_eq_mul_div, one_le_div hsize]
      exact hge
    unfold fadeClamp
    rw [min_eq_left (by linarith), max_eq_right (by linarith)]

/-- Witness for the amended C5 at size 100, distance 200, fade 1. -/
theorem fade_clamp_range_witness :
    ((0 : ℚ) < 100 ∧ (0 : ℚ) ≤ 200 ∧ (0 : ℚ) ≤ 1 ∧ (1 : ℚ) ≤ 1) ∧
    ((0 ≤ fadeClamp 100 200 1 ∧ fadeClamp 100 200 1 ≤ 1) ∧
     ((200 : ℚ) = 0 → fadeClamp 100 200 1 = 1) ∧
     ((100 : ℚ) ≤ 200 * 1 → fadeClamp 100 200 1 = 0)) :=
  ⟨⟨by norm_num, by norm_num, by norm_num, by norm_num⟩,
   fade_clamp_range 100 200 1 (by norm_num) (by norm_num) (by norm_num)
     (by norm_num)⟩

/-- C6: for all 8-bit channels, building a Color from (r,g,b,a), encoding
with `to_hexcode` and constructing a new Color from the hex string gives
back the identical color. -/
theorem color_hexcode_round_trip (r g b a : ℕ)
    (hr : r ≤ 255) (hg : g ≤ 255) (hb : b ≤ 255) (ha : a ≤ 255) :
    Color.ofHex (Color.ofNums r (some g) (some b) (some a)).to_hexcode =
      Color.ofNums r (some g) (some b) (some a) := by
  obtain ⟨hlr, hpr⟩ := pad2_pyUpperHex_round r (Nat.lt_succ_of_le hr)
  obtain ⟨hlg, hpg⟩ := pad2_pyUpperHex_round g (Nat.lt_succ_of_le hg)
  obtain ⟨hlb, hpb⟩ := pad2_pyUpperHex_round b (Nat.lt_succ_of_le hb)
  obtain ⟨hla, hpa⟩ := pad2_pyUpperHex_round a (Nat.lt_succ_of_le ha)
  obtain ⟨r1, r2, her⟩ := List.length_eq_two.mp hlr
  obtain ⟨g1, g2, heg⟩ := List.length_eq_two.mp hlg
  obtain ⟨b1, b2, heb⟩ := List.length_eq_two.mp hlb
  obtain ⟨a1, a2, hea⟩ := List.length_eq_two.mp hla
  rw [her] at hpr
  rw [heg] at hpg
  rw [heb] at hpb
  rw [hea] at hpa
  show Color.ofHex ('#' :: pad2 (pyUpperHex r) ++ pad2 (pyUpperHex g) ++
      pad2 (pyUpperHex b) ++ pad2 (pyUpperHex a)) = _
  rw [her, heg, heb, hea]
  simp [Color.ofHex, hex_to_rgba, assembleColor, Color.ofNums, hpr, hpg,
    hpb, hpa]

/-- Witness for C6 at (12, 0, 255, 7). -/
theorem color_hexcode_round_trip_witness :
    (12 ≤ 255 ∧ 0 ≤ 255 ∧ 255 ≤ 255 ∧ 7 ≤ 255) ∧
    Color.ofHex (Color.ofNums 12 (some 0) (some 255) (some 7)).to_hexcode =
      Color.ofNums 12 (some 0) (some 255) (some 7) :=
  ⟨⟨by decide, by decide, by decide, by decide⟩,
   color_hexcode_round_trip 12 0 255 7 (by decide) (by decide) (by decide)
     (by decide)⟩

set_option maxRecDepth 8000 in
/-- C7: rebuilding a camera from its serialized configuration and
re-serializing yields the identical configuration, field for field,
including the angle emitted in degrees (`piV` stands for pi and only needs
to be nonzero). -/
theorem camera_config_round_trip (piV : ℚ) (c : Camera) (hpi : piV ≠ 0) :
    Camera.to_json piV (Camera.new piV (Camera.to_json piV c)) =
      Camera.to_json piV c := by
  simp [Camera.new, Camera.from_json, Camera.to_json, Camera.initDefaults,
    Camera.set_fov, Camera.reset]
  field_simp

/-- Witness for C7 on a default-initialized camera with piV = 3. -/
theorem camera_config_round_trip_witness :
    (3 : ℚ) ≠ 0 ∧
    Camera.to_json 3 (Camera.new 3 (Camera.to_json 3 (Camera.initDefaults 3))) =
      Camera.to_json 3 (Camera.initDefaults 3) :=
  ⟨by norm_num, camera_config_round_trip 3 (Camera.initDefaults 3) (by norm_num)⟩

/-- C8: adding a robot already present in the world's robot list changes
neither the robot list nor the walls list, and the condition is reported
(the error message is printed) instead of raising. -/
theorem add_robot_duplicate_rejected (w : World) (robot : Robot) (rx ry : ℚ)
    (h : robot ∈ w.robots) :
    w.add_robot robot rx ry = (w, true) := by
  simp [World.add_robot, h]

/-- Witness for C8: re-adding `c8Robot` to `c8World` is a no-op. -/
theorem add_robot_duplicate_rejected_witness :
    c8Robot ∈ c8World.robots ∧
    c8World.add_robot c8Robot 5 6 = (c8World, true) :=
  ⟨by decide, add_robot_duplicate_rejected c8World c8Robot 5 6 (by decide)⟩

/-- C9 counterexample: `take_picture` on an unattached camera (robot is
None) with PIL available raises AttributeError — `_update` dereferences
`self.robot.world` unguarded — rather than reporting and returning None. -/
theorem take_picture_unattached_raises :
    takePictureEntry true none = .error ['A', 't', 't', 'r', 'E', 'r', 'r'] :=
  rfl

/-- C9 (amended): on an unattached camera, `watch()` reports the condition
and returns None; `take_picture()` returns None only when PIL is missing,
and with PIL available it raises AttributeError instead of returning. -/
theorem unattached_sensor_guards (robot : Option RobotLink)
    (h : robot = none ∨ ∃ r, robot = some r ∧ r.world = none) :
    watch robot = (none, true) ∧
    takePictureEntry false robot = .ok none ∧
    takePictureEntry true robot =
      .error ['A', 't', 't', 'r', 'E', 'r', 'r'] := by
  rcases h with rfl | ⟨r, rfl, hw⟩
  · exact ⟨rfl, rfl, rfl⟩
  · cases r
    cases hw
    exact ⟨rfl, rfl, rfl⟩

/-- Witness for the amended C9 on a camera with no robot. -/
theorem unattached_sensor_guards_witness :
    ((none : Option RobotLink) = none ∨
      ∃ r, (none : Option RobotLink) = some r ∧ r.world = none) ∧
    (watch none = (none, true) ∧
     takePictureEntry false none = .ok none ∧
     takePictureEntry true none =
       .error ['A', 't', 't', 'r', 'E', 'r', 'r']) :=
  ⟨Or.inl rfl, unattached_sensor_guards none (Or.inl rfl)⟩

/-- C10: constructing Color from a single integer n in [0,255] yields the
grayscale (n, n, n) with alpha 255, and constructing from a 3-element list
(r, g, b) yields alpha 255. -/
theorem color_gray_and_list_defaults (n r g b : ℕ) (hn : n ≤ 255)
    (hr : r ≤ 255) (hg : g ≤ 255) (hb : b ≤ 255) :
    Color.ofNums n none none none = ⟨none, n, n, n, 255⟩ ∧
    Color.ofList [r, g, b] = some ⟨none, r, g, b, 255⟩ :=
  ⟨rfl, rfl⟩

/-- Witness for C10 at n = 9 and (r,g,b) = (1,2,3). -/
theorem color_gray_and_list_defaults_witness :
    (9 ≤ 255 ∧ 1 ≤ 255 ∧ 2 ≤ 255 ∧ 3 ≤ 255) ∧
    Color.ofNums 9 none none none = ⟨none, 9, 9, 9, 255⟩ ∧
    Color.ofList [1, 2, 3] = some ⟨none, 1, 2, 3, 255⟩ :=
  ⟨⟨by decide, by decide, by decide, by decide⟩,
   (color_gray_and_list_defaults 9 1 2 3 (by decide) (by decide) (by decide)
     (by decide)).1,
   (color_gray_and_list_defaults 9 1 2 3 (by decide) (by decide) (by decide)
     (by decide)).2⟩

end Jyrobot
